import Mathlib

/-!
Verification development for the Redbeam export pipeline
(src/redbeam_scraper.py).

The automation script is shallowly embedded: DOM queries are modelled as
oracles (each selector of a selector list yields the list of elements the
browser would return, in document scan order), element attributes are
fields of a record, the clock is a natural number of seconds, and every
fallible step returns an Except value.  The definitions follow the source
function by function; theorems at the end settle the behavioural claims.
-/

/-- Character-level prefix test, used to build the substring test that
models the Python `in` operator on strings. -/
def listBeginsWith : List Char → List Char → Bool
  | _, [] => true
  | [], _ :: _ => false
  | c :: cs, d :: ds => c == d && listBeginsWith cs ds

/-- Substring occurrence test on character lists. -/
def listHasSub : List Char → List Char → Bool
  | [], needle => needle.isEmpty
  | c :: t, needle => listBeginsWith (c :: t) needle || listHasSub t needle

/-- Model of the Python `needle in hay` substring test. -/
def strContains (hay needle : String) : Bool :=
  listHasSub hay.data needle.data

/-- ASCII lower-casing of one character, modelling Python str.lower on the
ASCII identifiers and URLs the script works with. -/
def lowerChar (c : Char) : Char :=
  if 'A' ≤ c && c ≤ 'Z' then Char.ofNat (c.toNat + 32) else c

/-- Model of Python str.lower. -/
def strLower (s : String) : String :=
  ⟨s.data.map lowerChar⟩

/-- Model of the filename test performed by glob("*.csv"): the name ends
with the extension. -/
def strEndsW (s suffix : String) : Bool :=
  listBeginsWith s.data.reverse suffix.data.reverse

/-- A DOM element as the script observes it: the attributes read through
the WebDriver calls is_displayed, is_enabled, get_attribute and the text
property.  Absent attributes are the empty string, matching the
`get_attribute(..) or ""` idiom of the source. -/
structure Elem where
  displayed : Bool := false
  enabled : Bool := false
  ty : String := ""
  nameAttr : String := ""
  idAttr : String := ""
  cls : String := ""
  role : String := ""
  tag : String := ""
  text : String := ""
  title : String := ""
  aria : String := ""
  hasSvg : Bool := false
  svgHtml : String := ""
  nearRecordsHeader : Bool := false
  deriving Repr, DecidableEq

/-- The ordered selector-list loop shared by every discovery routine of
login_to_redbeam and by strategy 3 of the export-control search: iterate
the selector results in list order and, inside each, the elements in scan
order, returning the first element passing the filter (source lines
180-202, 264-284, 322-342, 394-414, 635-646). -/
def firstMatch (ok : Elem → Bool) : List (List Elem) → Option Elem
  | [] => none
  | l :: ls =>
    match l.find? ok with
    | some e => some e
    | none => firstMatch ok ls

theorem firstMatch_nil (ok : Elem → Bool) : firstMatch ok [] = none := rfl

theorem firstMatch_cons (ok : Elem → Bool) (l : List Elem) (ls : List (List Elem)) :
    firstMatch ok (l :: ls) =
      match l.find? ok with
      | some e => some e
      | none => firstMatch ok ls := rfl

/-- An element returned by the selector-list loop passes the loop's filter. -/
theorem firstMatch_ok {ok : Elem → Bool} {ls : List (List Elem)} {e : Elem}
    (h : firstMatch ok ls = some e) : ok e = true := by
  induction ls with
  | nil => simp [firstMatch] at h
  | cons l t ih =>
    rw [firstMatch_cons] at h
    cases hf : l.find? ok with
    | none => rw [hf] at h; exact ih h
    | some x =>
      rw [hf] at h
      cases h
      exact List.find?_some hf

/-- Selector lists whose results contain no qualifying element are skipped. -/
theorem firstMatch_append_none {ok : Elem → Bool} {pre : List (List Elem)}
    (h : ∀ l ∈ pre, l.find? ok = none) (suf : List (List Elem)) :
    firstMatch ok (pre ++ suf) = firstMatch ok suf := by
  induction pre with
  | nil => rfl
  | cons l t ih =>
    have hl : l.find? ok = none := h l (by simp)
    have ht : ∀ l2 ∈ t, l2.find? ok = none := fun l2 hm => h l2 (by simp [hm])
    simp only [List.cons_append, firstMatch_cons, hl]
    exact ih ht

/-- Within one selector's result list, the element found is the first in
scan order that qualifies. -/
theorem find?_first {ok : Elem → Bool} {pre suf : List Elem} {e : Elem}
    (hpre : ∀ x ∈ pre, ok x = false) (he : ok e = true) :
    (pre ++ e :: suf).find? ok = some e := by
  induction pre with
  | nil => simp [List.find?, he]
  | cons a t ih =>
    have ha : ok a = false := hpre a (by simp)
    have ht : ∀ x ∈ t, ok x = false := fun x hm => hpre x (by simp [hm])
    simp [List.find?, ha, ih ht]

/-- Filter of the primary username-selector loop (lines 188-193): visible,
enabled and not of password type. -/
def usernameOk (e : Elem) : Bool :=
  e.displayed && e.enabled && !(e.ty == "password")

/-- Filter of the exhaustive all-inputs fallback scan for the username
field (line 215): visible, enabled, and type none of password, hidden,
submit, button. -/
def usernameFallbackOk (e : Elem) : Bool :=
  e.displayed && e.enabled && !(e.ty == "password") && !(e.ty == "hidden")
    && !(e.ty == "submit") && !(e.ty == "button")

/-- Filter of the continue-button, password and login-button selector
loops (lines 274, 332, 404): visible and enabled. -/
def visEnabled (e : Elem) : Bool :=
  e.displayed && e.enabled

/-- Filter of the all-inputs fallback scan for the password field (line
350): password type and visible; the source checks no enabled state here. -/
def passwordFallbackOk (e : Elem) : Bool :=
  e.ty == "password" && e.displayed

/-- Filter of the submit-button fallback scan for the login button (line
421): visible only; the source checks no enabled state here. -/
def submitFallbackOk (e : Elem) : Bool :=
  e.displayed

/-- Oracle view of the login page: the elements each DOM query of
login_to_redbeam would return, in document scan order, plus the URL the
browser reports t seconds after the final submit. -/
structure LoginPage where
  usernameSelectorResults : List (List Elem)
  allInputs : List Elem
  continueSelectorResults : List (List Elem)
  passwordSelectorResults : List (List Elem)
  loginSelectorResults : List (List Elem)
  submitScanElems : List Elem
  urlAt : Nat → String

/-- Username-field discovery (lines 180-222): the ordered selector list,
then the exhaustive scan of all input elements. -/
def findUsernameField (p : LoginPage) : Option Elem :=
  match firstMatch usernameOk p.usernameSelectorResults with
  | some e => some e
  | none => p.allInputs.find? usernameFallbackOk

/-- Continue-button discovery after the identifier entry (lines 264-284). -/
def findContinueButton (p : LoginPage) : Option Elem :=
  firstMatch visEnabled p.continueSelectorResults

/-- Password-field discovery (lines 322-356): the ordered selector list,
then the all-inputs scan filtered to visible password-type elements. -/
def findPasswordField (p : LoginPage) : Option Elem :=
  match firstMatch visEnabled p.passwordSelectorResults with
  | some e => some e
  | none => p.allInputs.find? passwordFallbackOk

/-- Login-button discovery (lines 394-425): the ordered selector list,
then the scan over submit-type elements filtered to visible ones. -/
def findLoginButton (p : LoginPage) : Option Elem :=
  match firstMatch visEnabled p.loginSelectorResults with
  | some e => some e
  | none => p.submitScanElems.find? submitFallbackOk

/-- Observable side effects of the Authenticator, in execution order. -/
inductive Act where
  | writeFile (nm : String)
  | saveScreenshot (nm : String)
  | searchUsername
  | enterUsername
  | clickContinue
  | pressEnterOnUsername
  | searchPassword
  | enterPassword
  | clickLogin
  | pressEnterOnPassword
  deriving Repr, DecidableEq

/-- Wait condition of the post-submit WebDriverWait (line 442): the
current URL contains "app.redbeam.com". -/
def urlIndicatesApp (u : String) : Bool :=
  strContains u "app.redbeam.com"

/-- Login-page test applied on timeout (lines 451-453). -/
def loginUrlCheck (u : String) : Bool :=
  strContains u "login.app.redbeam.com" || strContains u "/u/login"
    || strContains (strLower u) "login"

/-- Bounded 45-second wait for redirection to the application domain
(lines 441-443), polled once per second. -/
def waitForApp (urlAt : Nat → String) : Bool :=
  (List.range 45).any (fun t => urlIndicatesApp (urlAt t))

/-- Post-submit verdict (lines 439-478): on timeout of the 45s wait,
inspect the current URL; if it still looks like the login page, save a
screenshot and raise "Login failed - still on login page", otherwise fall
through and proceed. -/
def postSubmitVerdict (urlAt : Nat → String) : Except String Unit × List Act :=
  if waitForApp urlAt then (Except.ok (), [])
  else if loginUrlCheck (urlAt 45) then
    (Except.error "Login failed - still on login page",
      [Act.saveScreenshot "login_failed.png"])
  else (Except.ok (), [])

/-- Body of login_to_redbeam after the page-source dump, returning the
propagated result and the remaining action trace.  The trailing
screenshot on error paths is the handler of lines 492-495 (modelled here
with the capture succeeding; the fallible-capture semantics of that
handler is loginExceptHandler below). -/
def loginRunTail (p : LoginPage) : Except String Unit × List Act :=
  match findUsernameField p with
  | none =>
    (Except.error "Username field not found",
      [Act.saveScreenshot "login_page_error.png",
       Act.saveScreenshot "login_error.png"])
  | some _ =>
    let contActs : List Act :=
      match findContinueButton p with
      | some _ => [Act.clickContinue]
      | none => [Act.pressEnterOnUsername]
    match findPasswordField p with
    | none =>
      (Except.error "Password field not found after clicking Continue",
        Act.enterUsername :: contActs ++
          [Act.searchPassword, Act.saveScreenshot "login_error.png"])
    | some _ =>
      let loginActs : List Act :=
        match findLoginButton p with
        | some _ => [Act.clickLogin]
        | none => [Act.pressEnterOnPassword]
      match postSubmitVerdict p.urlAt with
      | (Except.ok _, acts) =>
        (Except.ok (),
          Act.enterUsername :: contActs ++
            [Act.searchPassword, Act.enterPassword] ++ loginActs ++ acts)
      | (Except.error e, acts) =>
        (Except.error e,
          Act.enterUsername :: contActs ++
            [Act.searchPassword, Act.enterPassword] ++ loginActs ++ acts ++
            [Act.saveScreenshot "login_error.png"])

/-- login_to_redbeam (lines 91-495): after the login page loads, the page
source is dumped to login_page_source.html (lines 135-139) and only then
does identifier-field discovery begin (line 142). -/
def loginRun (p : LoginPage) : Except String Unit × List Act :=
  ((loginRunTail p).1,
    Act.writeFile "login_page_source.html" :: Act.searchUsername ::
      (loginRunTail p).2)

/-- A file in the download directory: name and modification time in
seconds. -/
structure DlFile where
  fname : String
  mtime : Nat
  deriving Repr, DecidableEq

/-- Fold step of mostRecent: keep the candidate with the larger
modification time, the earlier one on ties. -/
def mrStep (acc : Option DlFile) (f : DlFile) : Option DlFile :=
  match acc with
  | none => some f
  | some g => if g.mtime < f.mtime then some f else some g

/-- Model of sorting by modification time descending and taking the head
(lines 696-697): the first file in directory order holding the maximal
modification time (the Python sort is stable). -/
def mostRecent (fs : List DlFile) : Option DlFile :=
  fs.foldl mrStep none

/-- One poll of the download directory (lines 694-701): glob the csv
files, take the most recently modified, accept it only when its
modification age at the poll is under 60 seconds. -/
def pollOnce (files : List DlFile) (now : Nat) : Option DlFile :=
  match mostRecent (files.filter (fun f => strEndsW f.fname ".csv")) with
  | none => none
  | some f => if now - f.mtime < 60 then some f else none

/-- Error raised when the polling loop exhausts its bound (line 706). -/
def dlTimeoutMsg : String :=
  "CSV file not found in Downloads folder after keyboard navigation"

/-- Polling loop of lines 690-706: waitTime starts at 0 and grows by 2
per iteration while below 60; each iteration polls the directory as it is
waitTime seconds after the loop started.  The fuel argument only bounds
the recursion; 31 units are enough for every reachable waitTime. -/
def resolveGo (dirAt : Nat → List DlFile) (start : Nat) : Nat → Nat → Except String DlFile
  | _, 0 => Except.error dlTimeoutMsg
  | waitTime, fuel + 1 =>
    if waitTime < 60 then
      match pollOnce (dirAt (start + waitTime)) (start + waitTime) with
      | some f => Except.ok f
      | none => resolveGo dirAt start (waitTime + 2) fuel
    else Except.error dlTimeoutMsg

/-- Download Resolver (lines 687-706): poll every 2 seconds for at most
60 seconds total, returning the first qualifying file, else raising. -/
def resolveDownload (dirAt : Nat → List DlFile) (start : Nat) : Except String DlFile :=
  resolveGo dirAt start 0 31

/-- Observable side effects of the Export Trigger. -/
inductive ExpAct where
  | clickExportButton
  | keyboardNav
  | contentSearch
  | saveScreenshot (nm : String)
  | writeFile (nm : String)
  deriving Repr, DecidableEq

/-- Keyword test of export-control strategy 1 (lines 544-550): one of the
export/download/cloud/arrow keywords occurs in the lower-cased title,
aria-label or class attribute. -/
def kwMatch (b : Elem) : Bool :=
  ["export", "download", "cloud", "arrow"].any
    (fun k =>
      strContains (strLower b.title) k || strContains (strLower b.aria) k
        || strContains (strLower b.cls) k)

/-- Icon-content test of strategy 1 (lines 556-560): the svg markup
contains one of the path/polygon/circle patterns. -/
def svgIconLike (b : Elem) : Bool :=
  ["path", "polygon", "circle"].any
    (fun pat => strContains (strLower b.svgHtml) pat)

/-- Acceptance test of export-control strategy 1 (lines 535-581): a
visible button carrying an svg icon whose attributes match the keywords,
or whose icon content looks icon-like while the button sits inside a
header/toolbar/action ancestor of a "Records" text element. -/
def strat1Pick (b : Elem) : Bool :=
  b.displayed && b.hasSvg && (kwMatch b || (svgIconLike b && b.nearRecordsHeader))

/-- Export-control strategy 1 (lines 528-588): scan all buttons in
document order. -/
def exportStrategy1 (allButtons : List Elem) : Option Elem :=
  allButtons.find? strat1Pick

/-- Acceptance test of strategy 2 (lines 603-613): a visible button near
the Records text preferring ones with svg content or any class attribute;
the source checks no enabled state here. -/
def nearRecordsOk (b : Elem) : Bool :=
  b.displayed && (b.hasSvg || !(b.cls == ""))

/-- Acceptance test of strategy 3 (lines 638-641): visibility only; the
source checks no enabled state here. -/
def displayedOnly (e : Elem) : Bool :=
  e.displayed

/-- Oracle view of the Reports page for the Export Trigger. -/
structure ExportPage where
  allButtons : List Elem
  recordsNearby : List (List Elem)
  exportClassResults : List (List Elem)
  allElements : List Elem
  csvXpathResults : List (List Elem)
  jsMenuItems : List Elem
  seleniumMenuItems : List Elem

/-- Export-control discovery (lines 526-646): strategy 1 (svg-icon
buttons), then strategy 2 (buttons near the Records label), then
strategy 3 (class/title/aria selector list). -/
def findExportButton (p : ExportPage) : Option Elem :=
  match exportStrategy1 p.allButtons with
  | some b => some b
  | none =>
    match firstMatch nearRecordsOk p.recordsNearby with
    | some b => some b
    | none => firstMatch displayedOnly p.exportClassResults

/-- Whitespace test of Python str.strip. -/
def isSpaceChar (c : Char) : Bool :=
  c == ' ' || c == '\t' || c == '\n' || c == '\r'

/-- Model of Python str.strip. -/
def strTrim (s : String) : String :=
  ⟨((s.data.dropWhile isSpaceChar).reverse.dropWhile isSpaceChar).reverse⟩

/-- Collection test of the JavaScript scan of method 1 of the CSV-option
search (lines 722-734): lower-cased text contains "csv" or
"comma separated" and the element is visible (offsetParent non-null). -/
def csvJsCandidate (e : Elem) : Bool :=
  (strContains (strLower e.text) "csv"
      || strContains (strLower e.text) "comma separated")
    && e.displayed

/-- Menu-item test applied to the collected candidates (lines 739-750):
class contains "menu", or role is menuitem, or the tag is one of a,
button, li, div. -/
def csvMethod1Ok (e : Elem) : Bool :=
  strContains (strLower e.cls) "menu" || e.role == "menuitem"
    || ["a", "button", "li", "div"].contains (strLower e.tag)

/-- Acceptance test of method 2 of the CSV-option search (lines 779-794):
visible, and the stripped text contains (case folded) "csv" or "comma". -/
def csvMethod2Ok (e : Elem) : Bool :=
  e.displayed
    && (strContains (strLower (strTrim e.text)) "csv"
      || strContains (strLower (strTrim e.text)) "comma")

/-- Text test of methods 3 and 4 (lines 819-826, 837-845): the stripped
lower-cased text contains "csv", or contains both "comma" and
"separated". -/
def csvTextOk (e : Elem) : Bool :=
  strContains (strLower (strTrim e.text)) "csv"
    || (strContains (strLower (strTrim e.text)) "comma"
      && strContains (strLower (strTrim e.text)) "separated")

/-- CSV-option content-matching search of lines 714-849: method 1 (the
document-wide JavaScript text scan), method 2 (the XPath selector list),
method 3 (the JavaScript menu-item scan, which collects only visible
items), method 4 (the Selenium menu-item scan).  This code is present in
export_reports_data but sits after the keyboard-navigation try/except
block, whose try either returns or raises and whose handler re-raises, so
it can never execute. -/
def findCsvOption (p : ExportPage) : Option Elem :=
  match (p.allElements.filter csvJsCandidate).find? csvMethod1Ok with
  | some e => some e
  | none =>
    match firstMatch csvMethod2Ok p.csvXpathResults with
    | some e => some e
    | none =>
      match (p.jsMenuItems.filter (fun e => e.displayed)).find? csvTextOk with
      | some e => some e
      | none =>
        p.seleniumMenuItems.find? (fun e => e.displayed && csvTextOk e)

/-- Prefix of the error raised by the keyboard-navigation handler
(line 712). -/
def dlKeyboardFailPrefix : String :=
  "Failed to download CSV using keyboard navigation: "

/-- Menu selection of export_reports_data (lines 664-712): the keyboard
strategy (three ArrowDown then Enter) followed by the download poll; on
success the downloaded file is returned from inside the try block, and on
any failure the except handler of lines 708-712 saves a screenshot and
raises, so control never reaches the content-matching code of lines
714-857 and findCsvOption is never invoked. -/
def exportMenuSelection (dirAt : Nat → List DlFile) (start : Nat) :
    Except String DlFile × List ExpAct :=
  match resolveDownload dirAt start with
  | Except.ok f => (Except.ok f, [ExpAct.keyboardNav])
  | Except.error e =>
    (Except.error (dlKeyboardFailPrefix ++ e),
      [ExpAct.keyboardNav, ExpAct.saveScreenshot "keyboard_nav_error.png"])

/-- Inputs of one export_reports_data run. -/
structure ExportEnv where
  page : ExportPage
  dirAt : Nat → List DlFile
  start : Nat

/-- export_reports_data (lines 498-921): navigate, discover the export
control, run the menu selection; the trailing screenshot and page-source
dump on error paths is the handler of lines 916-921 (modelled here with
the captures succeeding; the fallible-capture semantics of that handler
is exportExceptHandler below). -/
def exportRun (env : ExportEnv) : Except String DlFile × List ExpAct :=
  match findExportButton env.page with
  | none =>
    (Except.error "Export button not found on Reports page",
      [ExpAct.saveScreenshot "export_button_not_found.png",
       ExpAct.saveScreenshot "export_error.png",
       ExpAct.writeFile "export_error_source.html"])
  | some _ =>
    match exportMenuSelection env.dirAt env.start with
    | (Except.ok f, acts) => (Except.ok f, ExpAct.clickExportButton :: acts)
    | (Except.error e, acts) =>
      (Except.error e,
        ExpAct.clickExportButton :: acts ++
          [ExpAct.saveScreenshot "export_error.png",
           ExpAct.writeFile "export_error_source.html"])

/-- Handler of login_to_redbeam (lines 492-495): inside the except block
a screenshot is taken with no guard and the original exception is then
re-raised; by Python semantics an exception raised by the capture itself
replaces the original as the propagated one. -/
def loginExceptHandler (orig : String) (shot : Except String Unit) : String :=
  match shot with
  | Except.error e => e
  | Except.ok _ => orig

/-- Handler of export_reports_data (lines 916-921): a screenshot, then a
page-source dump, both unguarded, then the re-raise; whichever capture
raises first replaces the original exception. -/
def exportExceptHandler (orig : String) (shot dump : Except String Unit) : String :=
  match shot with
  | Except.error e => e
  | Except.ok _ =>
    match dump with
    | Except.error e => e
    | Except.ok _ => orig

/-- Wall-clock instant as read by datetime.now(). -/
structure DateTime where
  year : Nat
  month : Nat
  day : Nat
  hour : Nat
  minute : Nat
  second : Nat
  deriving Repr, DecidableEq

/-- Two-digit zero padding of the %m %d %H %M %S strftime fields. -/
def pad2 (n : Nat) : String :=
  if n < 10 then "0" ++ toString n else toString n

/-- Model of strftime("%Y%m%d_%H%M%S") (line 968). -/
def timestampStr (t : DateTime) : String :=
  toString t.year ++ pad2 t.month ++ pad2 t.day ++ "_"
    ++ pad2 t.hour ++ pad2 t.minute ++ pad2 t.second

/-- Destination directory of get_desktop_path (line 45). -/
def destDir : String :=
  "C:\\Users\\natec\\OneDrive\\Desktop\\redbeam scraper"

/-- Destination filename built at line 969. -/
def archiveName (t : DateTime) : String :=
  "redbeam_data_" ++ timestampStr t ++ ".csv"

/-- Final path of line 970: the destination directory joined with the
timestamped filename. -/
def archivePath (t : DateTime) : String :=
  destDir ++ "\\" ++ archiveName t

/-- Filesystem state: the existing file paths and directories. -/
structure FS where
  files : List String
  dirs : List String
  deriving Repr, DecidableEq

/-- Model of mkdir(parents=True, exist_ok=True) (line 47). -/
def ensureDir (fs : FS) (d : String) : FS :=
  if fs.dirs.contains d then fs else { fs with dirs := d :: fs.dirs }

/-- Model of shutil.move (line 973): afterwards the destination path
exists and the source path does not. -/
def moveFile (fs : FS) (src dest : String) : FS :=
  { fs with files := dest :: fs.files.filter (fun p => !(p == src)) }

/-- Archiver step of main (lines 966-974): create the destination
directory if absent, then move the downloaded file to the timestamped
destination path. -/
def archiveFile (fs : FS) (src : String) (t : DateTime) : FS × String :=
  ((moveFile (ensureDir fs destDir) src (archivePath t)), archivePath t)

/-- Driver lifecycle events of main. -/
inductive MainAct where
  | initDriver
  | quitDriver
  | archiveMove
  deriving Repr, DecidableEq

/-- Inputs of one main run. -/
structure MainEnv where
  setupResult : Except String Unit
  page : LoginPage
  exp : ExportEnv
  fs : FS
  now : DateTime

/-- main (lines 948-990): driver starts as None; if setup_driver raises,
the finally block sees no driver and nothing is quit; once the driver
exists, the finally block quits it on every exit path, whether the body
returns the final path or a stage exception propagates. -/
def mainRun (env : MainEnv) : Except String String × List MainAct :=
  match env.setupResult with
  | Except.error e => (Except.error e, [])
  | Except.ok _ =>
    match (loginRun env.page).1 with
    | Except.error e => (Except.error e, [MainAct.initDriver, MainAct.quitDriver])
    | Except.ok _ =>
      match (exportRun env.exp).1 with
      | Except.error e =>
        (Except.error e, [MainAct.initDriver, MainAct.quitDriver])
      | Except.ok f =>
        (Except.ok (archiveFile env.fs f.fname env.now).2,
          [MainAct.initDriver, MainAct.archiveMove, MainAct.quitDriver])

/-- Fold invariant of mostRecent: the result is a member (or the initial
accumulator) and its modification time dominates the list and the
accumulator. -/
theorem mostRecent_fold {l : List DlFile} :
    ∀ {acc : Option DlFile} {f : DlFile}, l.foldl mrStep acc = some f →
      (acc = some f ∨ f ∈ l) ∧ (∀ g ∈ l, g.mtime ≤ f.mtime) ∧
        (∀ a, acc = some a → a.mtime ≤ f.mtime) := by
  induction l with
  | nil =>
    intro acc f h
    refine ⟨Or.inl h, by simp, fun a ha => ?_⟩
    rw [ha] at h
    cases h
    exact le_refl _
  | cons x t ih =>
    intro acc f h
    rw [List.foldl_cons] at h
    obtain ⟨h1, h2, h3⟩ := ih h
    cases acc with
    | none =>
      have hx : x.mtime ≤ f.mtime := h3 x rfl
      refine ⟨?_, ?_, ?_⟩
      · rcases h1 with h1 | h1
        · cases h1; exact Or.inr (by simp)
        · exact Or.inr (by simp [h1])
      · intro g hg
        rcases List.mem_cons.mp hg with hg | hg
        · rw [hg]; exact hx
        · exact h2 g hg
      · intro a ha; cases ha
    | some b =>
      by_cases hb : b.mtime < x.mtime
      · have hstep : mrStep (some b) x = some x := by simp [mrStep, hb]
        rw [hstep] at h1 h3
        have hx : x.mtime ≤ f.mtime := h3 x rfl
        refine ⟨?_, ?_, ?_⟩
        · rcases h1 with h1 | h1
          · cases h1; exact Or.inr (by simp)
          · exact Or.inr (by simp [h1])
        · intro g hg
          rcases List.mem_cons.mp hg with hg | hg
          · rw [hg]; exact hx
          · exact h2 g hg
        · intro a ha
          cases ha
          exact le_trans (le_of_lt hb) hx
      · have hstep : mrStep (some b) x = some b := by simp [mrStep, hb]
        rw [hstep] at h1 h3
        have hbf : b.mtime ≤ f.mtime := h3 b rfl
        refine ⟨?_, ?_, ?_⟩
        · rcases h1 with h1 | h1
          · exact Or.inl h1
          · exact Or.inr (by simp [h1])
        · intro g hg
          rcases List.mem_cons.mp hg with hg | hg
          · rw [hg]; exact le_trans (Nat.le_of_not_lt hb) hbf
          · exact h2 g hg
        · intro a ha
          cases ha
          exact hbf

/-- The most-recent pick is a member of the list and maximal in
modification time. -/
theorem mostRecent_spec {l : List DlFile} {f : DlFile}
    (h : mostRecent l = some f) : f ∈ l ∧ ∀ g ∈ l, g.mtime ≤ f.mtime := by
  have h0 : l.foldl mrStep none = some f := h
  obtain ⟨h1, h2, _⟩ := mostRecent_fold h0
  rcases h1 with h1 | h1
  · cases h1
  · exact ⟨h1, h2⟩

/-- Soundness of one directory poll: an accepted file is a csv file of
the directory, its age at the poll is under 60 seconds, and no csv file
of the directory is more recently modified. -/
theorem pollOnce_sound {files : List DlFile} {now : Nat} {f : DlFile}
    (h : pollOnce files now = some f) :
    f ∈ files ∧ strEndsW f.fname ".csv" = true ∧ now - f.mtime < 60 ∧
      ∀ g ∈ files, strEndsW g.fname ".csv" = true → g.mtime ≤ f.mtime := by
  unfold pollOnce at h
  cases hm : mostRecent (files.filter (fun f => strEndsW f.fname ".csv")) with
  | none => rw [hm] at h; cases h
  | some f0 =>
    rw [hm] at h
    change (if now - f0.mtime < 60 then some f0 else none) = some f at h
    by_cases hage : now - f0.mtime < 60
    · rw [if_pos hage] at h
      cases h
      obtain ⟨hmem, hmax⟩ := mostRecent_spec hm
      have hmem2 := List.mem_filter.mp hmem
      refine ⟨hmem2.1, hmem2.2, hage, fun g hg hcsv => ?_⟩
      exact hmax g (List.mem_filter.mpr ⟨hg, hcsv⟩)
    · rw [if_neg hage] at h
      cases h

/-- The poll accepts the most-recent csv file exactly when its age is
under 60 seconds. -/
theorem pollOnce_iff_fresh {files : List DlFile} {now : Nat} {f : DlFile}
    (h : mostRecent (files.filter (fun f => strEndsW f.fname ".csv")) = some f) :
    pollOnce files now = if now - f.mtime < 60 then some f else none := by
  unfold pollOnce
  rw [h]

/-- A successful polling loop run exits through some qualifying poll at
an even offset below the bound. -/
theorem resolveGo_ok {dirAt : Nat → List DlFile} {start : Nat} :
    ∀ {fuel wt : Nat} {f : DlFile}, resolveGo dirAt start wt fuel = Except.ok f →
      ∃ k, wt + 2 * k < 60 ∧
        pollOnce (dirAt (start + (wt + 2 * k))) (start + (wt + 2 * k)) = some f := by
  intro fuel
  induction fuel with
  | zero => intro wt f h; cases h
  | succ n ih =>
    intro wt f h
    unfold resolveGo at h
    by_cases hwt : wt < 60
    · rw [if_pos hwt] at h
      cases hp : pollOnce (dirAt (start + wt)) (start + wt) with
      | some g =>
        rw [hp] at h
        cases h
        exact ⟨0, by simpa using hwt, by simpa using hp⟩
      | none =>
        rw [hp] at h
        obtain ⟨k, hk1, hk2⟩ := ih h
        refine ⟨k + 1, ?_, ?_⟩
        · omega
        · have : wt + 2 + 2 * k = wt + 2 * (k + 1) := by omega
          rw [this] at hk2
          exact hk2
    · rw [if_neg hwt] at h
      cases h

/-- When every poll in the bound comes back empty, the loop raises the
download-not-found error. -/
theorem resolveGo_timeout {dirAt : Nat → List DlFile} {start : Nat} :
    ∀ {fuel wt : Nat},
      (∀ k, wt + 2 * k < 60 →
        pollOnce (dirAt (start + (wt + 2 * k))) (start + (wt + 2 * k)) = none) →
      resolveGo dirAt start wt fuel = Except.error dlTimeoutMsg := by
  intro fuel
  induction fuel with
  | zero => intro wt _; rfl
  | succ n ih =>
    intro wt h
    unfold resolveGo
    by_cases hwt : wt < 60
    · rw [if_pos hwt]
      have h0 : pollOnce (dirAt (start + wt)) (start + wt) = none := by
        simpa using h 0 (by simpa using hwt)
      rw [h0]
      refine ih fun k hk => ?_
      have : wt + 2 + 2 * k = wt + 2 * (k + 1) := by omega
      rw [this]
      exact h (k + 1) (by omega)
    · rw [if_neg hwt]

/-- Directory oracle of the first spec example: at the first poll (clock
1000) the csv files are 5, 70 and 120 seconds old. -/
def exampleDirFresh : Nat → List DlFile :=
  fun _ => [⟨"a.csv", 995⟩, ⟨"b.csv", 930⟩, ⟨"c.csv", 880⟩]

/-- Directory oracle of the second spec example: at the first poll (clock
1000) every csv file is at least 60 seconds old, and only ages further. -/
def exampleDirStale : Nat → List DlFile :=
  fun _ => [⟨"b.csv", 940⟩, ⟨"c.csv", 880⟩]

/-- C2.  The Download Resolver polls at 2-second offsets within a
60-second bound; a returned file comes from some in-bound poll, and a
poll accepts exactly the most recently modified csv file and only when
its modification age at that poll is under 60 seconds; if every in-bound
poll is empty the resolver raises the download-not-found error.  On the
spec examples: with csv ages 5s, 70s and 120s the 5s-old file is
returned, and with only files at least 60s old the resolver times out
and raises. -/
theorem c2_download_resolver :
    (∀ (dirAt : Nat → List DlFile) (start : Nat) (f : DlFile),
        resolveDownload dirAt start = Except.ok f →
        ∃ k, k < 30 ∧ pollOnce (dirAt (start + 2 * k)) (start + 2 * k) = some f) ∧
    (∀ (dirAt : Nat → List DlFile) (start : Nat),
        (∀ k, k < 30 → pollOnce (dirAt (start + 2 * k)) (start + 2 * k) = none) →
        resolveDownload dirAt start = Except.error dlTimeoutMsg) ∧
    (∀ (files : List DlFile) (now : Nat) (f : DlFile), pollOnce files now = some f →
        f ∈ files ∧ strEndsW f.fname ".csv" = true ∧ now - f.mtime < 60 ∧
          ∀ g ∈ files, strEndsW g.fname ".csv" = true → g.mtime ≤ f.mtime) ∧
    (∀ (files : List DlFile) (now : Nat) (f : DlFile),
        mostRecent (files.filter (fun g => strEndsW g.fname ".csv")) = some f →
        pollOnce files now = if now - f.mtime < 60 then some f else none) ∧
    resolveDownload exampleDirFresh 1000 = Except.ok ⟨"a.csv", 995⟩ ∧
    resolveDownload exampleDirStale 1000 = Except.error dlTimeoutMsg := by
  refine ⟨?_, ?_, ?_, ?_, by rfl, by rfl⟩
  · intro dirAt start f h
    have h0 : resolveGo dirAt start 0 31 = Except.ok f := h
    obtain ⟨k, hk1, hk2⟩ := resolveGo_ok h0
    exact ⟨k, by omega, by simpa using hk2⟩
  · intro dirAt start h
    show resolveGo dirAt start 0 31 = Except.error dlTimeoutMsg
    refine resolveGo_timeout ?_
    intro k hk
    have h2 := h k (by omega)
    simpa using h2
  · intro files now f h
    exact pollOnce_sound h
  · intro files now f h
    exact pollOnce_iff_fresh h

/-- Witness for C2: the fresh-file example exits through a qualifying
poll, and a directory with no csv file at any poll times out. -/
theorem c2_witness :
    (∃ k, k < 30 ∧ pollOnce (exampleDirFresh (1000 + 2 * k)) (1000 + 2 * k) =
        some ⟨"a.csv", 995⟩) ∧
    resolveDownload (fun _ => []) 0 = Except.error dlTimeoutMsg :=
  ⟨c2_download_resolver.1 exampleDirFresh 1000 ⟨"a.csv", 995⟩ rfl,
   c2_download_resolver.2.1 (fun _ => []) 0 (fun _ _ => rfl)⟩

/-- Login page on which no identifier-field strategy yields a match. -/
def noFieldPage : LoginPage :=
  ⟨[], [], [], [], [], [], fun _ => ""⟩

/-- Reports page with no usable export control or menu item. -/
def emptyExportPage : ExportPage :=
  ⟨[], [], [], [], [], [], []⟩

/-- Visible, enabled text input. -/
def goodInput : Elem :=
  { displayed := true, enabled := true, ty := "text" }

/-- Visible, enabled password input. -/
def goodPassword : Elem :=
  { displayed := true, enabled := true, ty := "password" }

/-- Visible, enabled button. -/
def goodButton : Elem :=
  { displayed := true, enabled := true }

/-- URL oracle of a successful login: the application domain is reported
immediately after the submit. -/
def appUrl : Nat → String :=
  fun _ => "https://app.redbeam.com/g/0"

/-- Login page on which every stage of the Authenticator succeeds. -/
def happyLoginPage : LoginPage :=
  ⟨[[goodInput]], [goodInput, goodPassword], [[goodButton]], [[goodPassword]],
    [[goodButton]], [], appUrl⟩

/-- Visible export button with an svg icon and an export aria-label. -/
def exportBtnElem : Elem :=
  { displayed := true, enabled := true, hasSvg := true, aria := "Export data" }

/-- Reports page on which strategy 1 finds the export control. -/
def happyExportPage : ExportPage :=
  ⟨[exportBtnElem], [], [], [], [], [], []⟩

/-- Download directory holding one csv file fresh at the first poll. -/
def freshDir : Nat → List DlFile :=
  fun _ => [⟨"report.csv", 1000⟩]

/-- Pipeline environment whose login stage fails. -/
def envFail : MainEnv :=
  ⟨Except.ok (), noFieldPage, ⟨emptyExportPage, fun _ => [], 0⟩, ⟨[], []⟩,
    ⟨2024, 3, 5, 9, 0, 0⟩⟩

/-- Pipeline environment in which every stage succeeds. -/
def envHappy : MainEnv :=
  ⟨Except.ok (), happyLoginPage, ⟨happyExportPage, freshDir, 1000⟩,
    ⟨["report.csv"], []⟩, ⟨2024, 3, 5, 9, 0, 0⟩⟩

/-- C3.  Whenever the browser session is created, main's finally block
quits it on every exit path, both when the body returns the archived
path and when a stage error propagates. -/
theorem c3_session_teardown :
    ∀ env : MainEnv, env.setupResult = Except.ok () →
      MainAct.quitDriver ∈ (mainRun env).2 := by
  intro env h
  unfold mainRun
  rw [h]
  cases hl : (loginRun env.page).1 with
  | error e => simp [hl]
  | ok u =>
    cases he : (exportRun env.exp).1 with
    | error e2 => simp [hl, he]
    | ok f => simp [hl, he]

/-- Witness for C3: teardown happens both on a failing-login run and on
a fully successful run. -/
theorem c3_witness :
    MainAct.quitDriver ∈ (mainRun envFail).2 ∧
      MainAct.quitDriver ∈ (mainRun envHappy).2 :=
  ⟨c3_session_teardown envFail rfl, c3_session_teardown envHappy rfl⟩

/-- C4.  When neither the ordered username-selector list nor the
exhaustive all-inputs scan yields a usable identifier field, the
Authenticator saves a screenshot and propagates "Username field not
found", and no password-stage action (password search, password entry,
final submit) ever appears in the run. -/
theorem c4_username_not_found :
    ∀ p : LoginPage,
      firstMatch usernameOk p.usernameSelectorResults = none →
      p.allInputs.find? usernameFallbackOk = none →
      (loginRun p).1 = Except.error "Username field not found" ∧
      Act.saveScreenshot "login_page_error.png" ∈ (loginRun p).2 ∧
      Act.searchPassword ∉ (loginRun p).2 ∧
      Act.enterPassword ∉ (loginRun p).2 ∧
      Act.clickLogin ∉ (loginRun p).2 ∧
      Act.pressEnterOnPassword ∉ (loginRun p).2 := by
  intro p h1 h2
  have hu : findUsernameField p = none := by
    unfold findUsernameField
    rw [h1, h2]
  have hrun : loginRun p =
      (Except.error "Username field not found",
        [Act.writeFile "login_page_source.html", Act.searchUsername,
         Act.saveScreenshot "login_page_error.png",
         Act.saveScreenshot "login_error.png"]) := by
    simp [loginRun, loginRunTail, hu]
  rw [hrun]
  exact ⟨rfl, by decide, by decide, by decide, by decide, by decide⟩

/-- Witness for C4: on the page with no input elements at all, the
identifier stage fails as claimed. -/
theorem c4_witness :
    (loginRun noFieldPage).1 = Except.error "Username field not found" ∧
      Act.saveScreenshot "login_page_error.png" ∈ (loginRun noFieldPage).2 ∧
      Act.searchPassword ∉ (loginRun noFieldPage).2 ∧
      Act.enterPassword ∉ (loginRun noFieldPage).2 ∧
      Act.clickLogin ∉ (loginRun noFieldPage).2 ∧
      Act.pressEnterOnPassword ∉ (loginRun noFieldPage).2 :=
  c4_username_not_found noFieldPage rfl rfl

/-- C7.  After the password submit, the Authenticator waits (bounded 45s)
for the application domain; on timeout it raises the login-failure error
and captures a screenshot exactly when the current location still looks
like the login page, and proceeds without raising otherwise; no timeout
means no raise. -/
theorem c7_post_submit_verdict :
    ∀ urlAt : Nat → String,
      (waitForApp urlAt = false → loginUrlCheck (urlAt 45) = true →
        postSubmitVerdict urlAt =
          (Except.error "Login failed - still on login page",
            [Act.saveScreenshot "login_failed.png"])) ∧
      (waitForApp urlAt = false → loginUrlCheck (urlAt 45) = false →
        postSubmitVerdict urlAt = (Except.ok (), [])) ∧
      (waitForApp urlAt = true → postSubmitVerdict urlAt = (Except.ok (), [])) := by
  intro urlAt
  refine ⟨fun h1 h2 => ?_, fun h1 h2 => ?_, fun h1 => ?_⟩
  · simp [postSubmitVerdict, h1, h2]
  · simp [postSubmitVerdict, h1, h2]
  · simp [postSubmitVerdict, h1]

/-- URL oracle stuck on the login page after submit. -/
def loginStuckUrl : Nat → String :=
  fun _ => "https://example.org/u/login"

/-- URL oracle reporting a location that is neither the application
domain nor the login page. -/
def elsewhereUrl : Nat → String :=
  fun _ => "https://example.org/home"

/-- Witness for C7: the three verdict branches at concrete URL oracles. -/
theorem c7_witness :
    postSubmitVerdict loginStuckUrl =
      (Except.error "Login failed - still on login page",
        [Act.saveScreenshot "login_failed.png"]) ∧
    postSubmitVerdict elsewhereUrl = (Except.ok (), []) ∧
    postSubmitVerdict appUrl = (Except.ok (), []) :=
  ⟨(c7_post_submit_verdict loginStuckUrl).1 (by decide) (by decide),
   (c7_post_submit_verdict elsewhereUrl).2.1 (by decide) (by decide),
   (c7_post_submit_verdict appUrl).2.2 (by decide)⟩

/-- C10.  On every run of the Authenticator the full page markup is
written to login_page_source.html first, before identifier-field
discovery begins — on successful runs just as on failing ones. -/
theorem c10_page_source_dump :
    ∀ p : LoginPage, ∃ rest, (loginRun p).2 =
      Act.writeFile "login_page_source.html" :: Act.searchUsername :: rest :=
  fun p => ⟨(loginRunTail p).2, rfl⟩

/-- C8.  Ordering determinism of locator discovery: across a selector
list the earliest selector with a qualifying element wins regardless of
later matches, within one selector the first qualifying element in scan
order wins, and at routine level the primary strategy's match is the one
returned by the identifier, password, login-button and export-control
discovery whenever it exists. -/
theorem c8_locator_ordering :
    (∀ (ok : Elem → Bool) (pre : List (List Elem)) (l : List Elem)
        (suf : List (List Elem)) (e : Elem),
        (∀ l2 ∈ pre, l2.find? ok = none) → l.find? ok = some e →
        firstMatch ok (pre ++ l :: suf) = some e) ∧
    (∀ (ok : Elem → Bool) (pre : List Elem) (e : Elem) (suf : List Elem),
        (∀ x ∈ pre, ok x = false) → ok e = true →
        (pre ++ e :: suf).find? ok = some e) ∧
    (∀ (p : LoginPage) (e : Elem),
        firstMatch usernameOk p.usernameSelectorResults = some e →
        findUsernameField p = some e) ∧
    (∀ (p : LoginPage) (e : Elem),
        firstMatch visEnabled p.passwordSelectorResults = some e →
        findPasswordField p = some e) ∧
    (∀ (p : LoginPage) (e : Elem),
        firstMatch visEnabled p.loginSelectorResults = some e →
        findLoginButton p = some e) ∧
    (∀ (p : ExportPage) (b : Elem),
        exportStrategy1 p.allButtons = some b → findExportButton p = some b) ∧
    (∀ (p : ExportPage) (b : Elem),
        exportStrategy1 p.allButtons = none →
        firstMatch nearRecordsOk p.recordsNearby = some b →
        findExportButton p = some b) := by
  refine ⟨?_, ?_, ?_, ?_, ?_, ?_, ?_⟩
  · intro ok pre l suf e hpre he
    rw [firstMatch_append_none hpre, firstMatch_cons, he]
  · intro ok pre e suf hpre he
    exact find?_first hpre he
  · intro p e h
    unfold findUsernameField
    rw [h]
  · intro p e h
    unfold findPasswordField
    rw [h]
  · intro p e h
    unfold findLoginButton
    rw [h]
  · intro p b h
    unfold findExportButton
    rw [h]
  · intro p b h1 h2
    unfold findExportButton
    rw [h1, h2]

/-- Visible but disabled element, qualifying for no enabled-checking
filter. -/
def decoyElem : Elem :=
  { displayed := true, enabled := false }

/-- Witness for C8: with two selector lists both holding qualifying
buttons, the earlier list's first qualifying button is returned; within
one list the first qualifying element wins; the primary password loop's
match is what the password discovery returns. -/
theorem c8_witness :
    firstMatch visEnabled ([[decoyElem]] ++ [decoyElem, goodButton] :: [[goodInput]]) =
        some goodButton ∧
    ([decoyElem] ++ goodButton :: [goodInput]).find? visEnabled = some goodButton ∧
    findPasswordField happyLoginPage = some goodPassword :=
  ⟨c8_locator_ordering.1 visEnabled [[decoyElem]] [decoyElem, goodButton]
      [[goodInput]] goodButton (by decide) (by decide),
   c8_locator_ordering.2.1 visEnabled [decoyElem] goodButton [goodInput]
      (by decide) (by decide),
   c8_locator_ordering.2.2.2.1 happyLoginPage goodPassword (by decide)⟩

/-- Visible, disabled password input accepted by the fallback scan. -/
def disabledPassword : Elem :=
  { displayed := true, enabled := false, ty := "password" }

/-- Visible, disabled icon button accepted by export strategy 2. -/
def disabledRecordsButton : Elem :=
  { displayed := true, enabled := false, cls := "action-button", hasSvg := true }

/-- Login page on which the password fallback scan returns a disabled
element. -/
def pageDisabled : LoginPage :=
  ⟨[], [disabledPassword], [], [], [], [], fun _ => ""⟩

/-- Counterexample to C9: the password-field discovery and export
strategy 2 both accept an element that reports itself disabled, so not
every accepted candidate was checked to be interactive. -/
theorem c9_counterexample :
    findPasswordField pageDisabled = some disabledPassword ∧
    disabledPassword.enabled = false ∧
    firstMatch nearRecordsOk [[disabledRecordsButton]] = some disabledRecordsButton ∧
    disabledRecordsButton.enabled = false := by
  decide

/-- C9 as amended.  The identifier loops (primary and fallback) and the
primary continue/password/login loops accept only visible and enabled
elements; the password fallback scan, the submit fallback scan, all
three export-control strategies and the CSV menu-item searches check
visibility only. -/
theorem c9_candidate_filtering :
    (∀ (ls : List (List Elem)) (e : Elem), firstMatch usernameOk ls = some e →
        e.displayed = true ∧ e.enabled = true) ∧
    (∀ (inputs : List Elem) (e : Elem), inputs.find? usernameFallbackOk = some e →
        e.displayed = true ∧ e.enabled = true) ∧
    (∀ (ls : List (List Elem)) (e : Elem), firstMatch visEnabled ls = some e →
        e.displayed = true ∧ e.enabled = true) ∧
    (∀ (inputs : List Elem) (e : Elem), inputs.find? passwordFallbackOk = some e →
        e.displayed = true) ∧
    (∀ (es : List Elem) (e : Elem), es.find? submitFallbackOk = some e →
        e.displayed = true) ∧
    (∀ (btns : List Elem) (b : Elem), exportStrategy1 btns = some b →
        b.displayed = true) ∧
    (∀ (ls : List (List Elem)) (b : Elem), firstMatch nearRecordsOk ls = some b →
        b.displayed = true) ∧
    (∀ (ls : List (List Elem)) (b : Elem), firstMatch displayedOnly ls = some b →
        b.displayed = true) ∧
    (∀ (p : ExportPage) (e : Elem), findCsvOption p = some e →
        e.displayed = true) := by
  refine ⟨?_, ?_, ?_, ?_, ?_, ?_, ?_, ?_, ?_⟩
  · intro ls e h
    have := firstMatch_ok h
    simp [usernameOk, Bool.and_eq_true] at this
    tauto
  · intro inputs e h
    have := List.find?_some h
    simp [usernameFallbackOk, Bool.and_eq_true] at this
    tauto
  · intro ls e h
    have := firstMatch_ok h
    simp [visEnabled, Bool.and_eq_true] at this
    exact this
  · intro inputs e h
    have := List.find?_some h
    simp [passwordFallbackOk, Bool.and_eq_true] at this
    exact this.2
  · intro es e h
    have := List.find?_some h
    simpa [submitFallbackOk] using this
  · intro btns b h
    have := List.find?_some h
    simp [strat1Pick, Bool.and_eq_true] at this
    tauto
  · intro ls b h
    have := firstMatch_ok h
    simp [nearRecordsOk, Bool.and_eq_true] at this
    exact this.1
  · intro ls b h
    have := firstMatch_ok h
    simpa [displayedOnly] using this
  · intro p e h
    unfold findCsvOption at h
    cases h1 : (p.allElements.filter csvJsCandidate).find? csvMethod1Ok with
    | some x =>
      rw [h1] at h
      cases h
      have hm := List.mem_of_find?_eq_some h1
      have hc := (List.mem_filter.mp hm).2
      simp [csvJsCandidate, Bool.and_eq_true] at hc
      exact hc.2
    | none =>
      rw [h1] at h
      change (match firstMatch csvMethod2Ok p.csvXpathResults with
        | some e => some e
        | none =>
          match (p.jsMenuItems.filter (fun e => e.displayed)).find? csvTextOk with
          | some e => some e
          | none => p.seleniumMenuItems.find? (fun e => e.displayed && csvTextOk e)) =
        some e at h
      cases h2 : firstMatch csvMethod2Ok p.csvXpathResults with
      | some x =>
        rw [h2] at h
        cases h
        have := firstMatch_ok h2
        simp [csvMethod2Ok, Bool.and_eq_true] at this
        exact this.1
      | none =>
        rw [h2] at h
        change (match (p.jsMenuItems.filter (fun e => e.displayed)).find? csvTextOk with
          | some e => some e
          | none => p.seleniumMenuItems.find? (fun e => e.displayed && csvTextOk e)) =
          some e at h
        cases h3 : (p.jsMenuItems.filter (fun e => e.displayed)).find? csvTextOk with
        | some x =>
          rw [h3] at h
          cases h
          have hm := List.mem_of_find?_eq_some h3
          have := (List.mem_filter.mp hm).2
          simpa using this
        | none =>
          rw [h3] at h
          change p.seleniumMenuItems.find? (fun e => e.displayed && csvTextOk e) =
            some e at h
          have := List.find?_some h
          simp [Bool.and_eq_true] at this
          exact this.1

/-- Witness for C9: the primary loops at concrete pages return only
visible and enabled elements, and the visibility-only scans return a
visible element. -/
theorem c9_witness :
    (goodPassword.displayed = true ∧ goodPassword.enabled = true) ∧
    disabledPassword.displayed = true ∧
    exportBtnElem.displayed = true :=
  ⟨c9_candidate_filtering.2.2.1 [[goodPassword]] goodPassword (by decide),
   c9_candidate_filtering.2.2.2.1 [disabledPassword] disabledPassword (by decide),
   c9_candidate_filtering.2.2.2.2.2.1 [exportBtnElem] exportBtnElem (by decide)⟩

/-- Counterexample to C5: when the screenshot capture in the except
handler itself fails, the propagated error is the capture failure, not
the original stage error — the diagnostic capture does mask it. -/
theorem c5_counterexample :
    loginExceptHandler "Login failed - still on login page"
        (Except.error "screenshot capture failed") ≠
      "Login failed - still on login page" ∧
    exportExceptHandler "Export button not found on Reports page"
        (Except.error "screenshot capture failed") (Except.ok ()) ≠
      "Export button not found on Reports page" := by
  decide

/-- C5 as amended.  The original stage error is the propagated one only
when the unguarded diagnostic captures succeed; a failing capture's own
exception replaces it (the screenshot first, then the page-source dump in
the export handler). -/
theorem c5_diagnostic_capture :
    ∀ orig : String,
      loginExceptHandler orig (Except.ok ()) = orig ∧
      exportExceptHandler orig (Except.ok ()) (Except.ok ()) = orig ∧
      (∀ e, loginExceptHandler orig (Except.error e) = e) ∧
      (∀ e d, exportExceptHandler orig (Except.error e) d = e) ∧
      (∀ e, exportExceptHandler orig (Except.ok ()) (Except.error e) = e) :=
  fun _ => ⟨rfl, rfl, fun _ => rfl, fun _ _ => rfl, fun _ => rfl⟩

/-- C6.  Archiving at clock 2024-03-05 09:00:00 names the destination
redbeam_data_20240305_090000.csv; in general the archive step creates
the destination directory if absent and moves the source there: the
timestamped destination exists afterwards, the source path does not, and
the returned path is the destination. -/
theorem c6_archiver :
    archiveName ⟨2024, 3, 5, 9, 0, 0⟩ = "redbeam_data_20240305_090000.csv" ∧
    ∀ (fs : FS) (src : String) (t : DateTime), src ≠ archivePath t →
      archivePath t ∈ (archiveFile fs src t).1.files ∧
      src ∉ (archiveFile fs src t).1.files ∧
      destDir ∈ (archiveFile fs src t).1.dirs ∧
      (archiveFile fs src t).2 = archivePath t := by
  refine ⟨by decide, ?_⟩
  intro fs src t hne
  refine ⟨?_, ?_, ?_, rfl⟩
  · simp [archiveFile, moveFile]
  · intro hmem
    simp [archiveFile, moveFile, List.mem_filter] at hmem
    exact hne hmem
  · show destDir ∈ (ensureDir fs destDir).dirs
    unfold ensureDir
    by_cases hc : fs.dirs.contains destDir
    · rw [if_pos hc]
      exact List.mem_of_elem_eq_true hc
    · rw [if_neg hc]
      exact List.mem_cons_self destDir fs.dirs

/-- Source path of the witness run. -/
def srcReport : String := "C:\\Users\\natec\\Downloads\\report.csv"

/-- Filesystem of the witness run: only the downloaded report exists. -/
def fsStart : FS := ⟨[srcReport], []⟩

/-- Fixed clock of the spec example. -/
def marchClock : DateTime := ⟨2024, 3, 5, 9, 0, 0⟩

/-- Witness for C6: the concrete archive run relocates the report. -/
theorem c6_witness :
    archivePath marchClock ∈ (archiveFile fsStart srcReport marchClock).1.files ∧
    srcReport ∉ (archiveFile fsStart srcReport marchClock).1.files ∧
    destDir ∈ (archiveFile fsStart srcReport marchClock).1.dirs ∧
    (archiveFile fsStart srcReport marchClock).2 = archivePath marchClock :=
  c6_archiver.2 fsStart srcReport marchClock (by decide)

/-- Visible menu item carrying the CSV label, of the shape the
content-matching search looks for. -/
def csvMenuElem : Elem :=
  { displayed := true, enabled := true, text := "Comma Separated Values (CSV)",
    tag := "li", role := "menuitem", cls := "szh-menu__item" }

/-- Reports page on which the export control is found and the CSV menu
item is present and discoverable by the content-matching search. -/
def pageWithCsvItem : ExportPage :=
  ⟨[exportBtnElem], [], [], [csvMenuElem], [[csvMenuElem]], [csvMenuElem],
    [csvMenuElem]⟩

/-- Export run whose keyboard strategy yields no file (empty download
directory) although the CSV menu item is present. -/
def envNoDownload : ExportEnv :=
  ⟨pageWithCsvItem, fun _ => [], 0⟩

/-- Counterexample to C1: on a run where the keyboard strategy produces
no downloaded file, the stage fails with the keyboard-navigation error
without ever attempting the content-matching search — even though that
search, had it run, would have found the CSV menu item. -/
theorem c1_counterexample :
    (exportRun envNoDownload).1 =
      Except.error (dlKeyboardFailPrefix ++ dlTimeoutMsg) ∧
    ExpAct.contentSearch ∉ (exportRun envNoDownload).2 ∧
    findCsvOption pageWithCsvItem = some csvMenuElem := by
  refine ⟨by rfl, by decide, by rfl⟩

/-- First character of the keyboard-navigation failure message, however
the inner error reads. -/
theorem keyboardMsg_head (s : String) :
    (dlKeyboardFailPrefix ++ s).data.head? = some 'F' := by
  rw [String.data_append]
  rfl

/-- The keyboard-navigation failure message is never the
export-option-not-found message of the unreachable code. -/
theorem keyboardMsg_ne (s : String) :
    dlKeyboardFailPrefix ++ s ≠ "CSV export option not found in dropdown" := by
  intro h
  have h1 : (dlKeyboardFailPrefix ++ s).data.head? = some 'C' := by
    rw [h]
    rfl
  rw [keyboardMsg_head s] at h1
  exact absurd h1 (by decide)

/-- C1 as amended.  The menu-selection stage runs only the keyboard
strategy: when the download poll fails it raises the keyboard-navigation
error immediately after the screenshot; the content-matching search is
never attempted on any run, and the export-option-not-found error of the
unreachable content-matching code is never raised. -/
theorem c1_export_menu_selection :
    (∀ (dirAt : Nat → List DlFile) (start : Nat),
        ExpAct.contentSearch ∉ (exportMenuSelection dirAt start).2) ∧
    (∀ (dirAt : Nat → List DlFile) (start : Nat) (e : String),
        resolveDownload dirAt start = Except.error e →
        exportMenuSelection dirAt start =
          (Except.error (dlKeyboardFailPrefix ++ e),
            [ExpAct.keyboardNav, ExpAct.saveScreenshot "keyboard_nav_error.png"])) ∧
    (∀ env : ExportEnv, ExpAct.contentSearch ∉ (exportRun env).2) ∧
    (∀ env : ExportEnv,
        (exportRun env).1 ≠ Except.error "CSV export option not found in dropdown") := by
  refine ⟨?_, ?_, ?_, ?_⟩
  · intro dirAt start
    unfold exportMenuSelection
    cases hr : resolveDownload dirAt start with
    | ok f => simp
    | error e => simp
  · intro dirAt start e h
    unfold exportMenuSelection
    rw [h]
  · intro env
    unfold exportRun
    cases hb : findExportButton env.page with
    | none => simp
    | some b =>
      unfold exportMenuSelection
      cases hr : resolveDownload env.dirAt env.start with
      | ok f => simp
      | error e => simp
  · intro env
    unfold exportRun
    cases hb : findExportButton env.page with
    | none =>
      intro h
      injection h with h2
      exact absurd h2 (by decide)
    | some b =>
      unfold exportMenuSelection
      cases hr : resolveDownload env.dirAt env.start with
      | ok f =>
        intro h
        cases h
      | error e =>
        intro h
        injection h with h2
        exact keyboardMsg_ne e h2

/-- Witness for C1: the amended behaviour at the concrete
empty-download-directory run. -/
theorem c1_witness :
    ExpAct.contentSearch ∉ (exportMenuSelection (fun _ => []) 0).2 ∧
    exportMenuSelection (fun _ => []) 0 =
      (Except.error (dlKeyboardFailPrefix ++ dlTimeoutMsg),
        [ExpAct.keyboardNav, ExpAct.saveScreenshot "keyboard_nav_error.png"]) ∧
    ExpAct.contentSearch ∉ (exportRun envNoDownload).2 ∧
    (exportRun envNoDownload).1 ≠
      Except.error "CSV export option not found in dropdown" :=
  ⟨c1_export_menu_selection.1 (fun _ => []) 0,
   c1_export_menu_selection.2.1 (fun _ => []) 0 dlTimeoutMsg rfl,
   c1_export_menu_selection.2.2.1 envNoDownload,
   c1_export_menu_selection.2.2.2 envNoDownload⟩
